import Mathlib

/-!
Verification of the financial metrics engine of the cooperative dashboard
(src/main.py) against its natural-language specification.

Modelling conventions:
* A processed accounting row carries the columns used by the engine:
  CODIGO_CONTABLE (codigo), TIPO (tipo), GRUPO (grupo) and the monetary
  column "PADRE JULIAN LORENTE LTDA" (monto).  Monetary values are modelled
  as exact rationals, the usual idealization of the float arithmetic used in
  the source.
* Python float division never raises: dividing by 0.0 produces a non-finite
  value (inf or nan).  We model the result of a division as Option of a
  rational, where none stands for a non-finite outcome.  pyDiv below is the
  unguarded division of the source; code that guards its division with an
  explicit check (x if den != 0 else 0) is modelled with a plain if-then-else
  on rationals.
-/

/-- One processed accounting line item (rows of the monthly data frames after
the numeric normalization of procesar_dataframe). -/
structure Row where
  codigo : Int
  tipo : Int
  grupo : Int
  monto : ℚ
  deriving DecidableEq

/-- One month's processed ledger extract. -/
structure DataFrame where
  rows : List Row
  deriving DecidableEq

/-- Sum of the monetary column over the rows selected by a boolean filter,
modelling df[filter]["PADRE JULIAN LORENTE LTDA"].sum(). -/
def sumaMonto (rows : List Row) (p : Row → Bool) : ℚ :=
  ((rows.filter p).map Row.monto).sum

/-- Unguarded Python float division: none models the non-finite value
(inf or nan) produced when the denominator is zero. -/
def pyDiv (a b : ℚ) : Option ℚ :=
  if b = 0 then none else some (a / b)

/-- The column used for the Assets aggregation: the monthly paths use
CODIGO_CONTABLE, the annual ROA path uses GRUPO. -/
inductive ColumnaActivos where
  | codigoContable
  | grupo
  deriving DecidableEq

/-- Value of the selected assets column in a row. -/
def valorColumna : ColumnaActivos → Row → Int
  | ColumnaActivos.codigoContable, r => r.codigo
  | ColumnaActivos.grupo, r => r.grupo

/-- Result record of calcular_metricas_basicas. -/
structure MetricasBasicas where
  ingresos : ℚ
  gastos : ℚ
  activos : ℚ
  utilidad_neta : ℚ
  deriving DecidableEq

/-- Embedding of calcular_metricas_basicas (src/main.py lines 32-63).
The defaulted keyword arguments of the source are passed explicitly. -/
def calcular_metricas_basicas (df : DataFrame)
    (tipo_ingresos tipo_gastos tipo_activos : Int)
    (columna_activos : ColumnaActivos) : MetricasBasicas :=
  let ingresos := sumaMonto df.rows (fun r => r.tipo == tipo_ingresos)
  let gastos := sumaMonto df.rows (fun r => r.tipo == tipo_gastos)
  let activos := sumaMonto df.rows (fun r => valorColumna columna_activos r == tipo_activos)
  ⟨ingresos, gastos, activos, ingresos - gastos⟩

/-- Result record of calcular_metricas_eficiencia. -/
structure MetricasEficiencia where
  ingresos : ℚ
  gastos_operativos : ℚ
  eficiencia : ℚ
  deriving DecidableEq

/-- Embedding of calcular_metricas_eficiencia (src/main.py lines 66-91).
The division is guarded in the source (0 when ingresos is 0). -/
def calcular_metricas_eficiencia (df : DataFrame)
    (tipo_ingresos tipo_gastos_operativos : Int) : MetricasEficiencia :=
  let ingresos := sumaMonto df.rows (fun r => r.tipo == tipo_ingresos)
  let gastos_operativos := sumaMonto df.rows (fun r => r.codigo == tipo_gastos_operativos)
  ⟨ingresos, gastos_operativos,
    if ingresos ≠ 0 then (ingresos - gastos_operativos) / ingresos else 0⟩

/-- Result record of calcular_metricas_solvencia. -/
structure MetricasSolvencia where
  patrimonio : ℚ
  activos_total : ℚ
  solvencia : ℚ
  deriving DecidableEq

/-- Embedding of calcular_metricas_solvencia (src/main.py lines 94-119).
The division is guarded in the source (0 when activos_total is 0). -/
def calcular_metricas_solvencia (df : DataFrame)
    (tipo_patrimonio tipo_activos : Int) : MetricasSolvencia :=
  let patrimonio := sumaMonto df.rows (fun r => r.tipo == tipo_patrimonio)
  let activos_total := sumaMonto df.rows (fun r => r.codigo == tipo_activos)
  ⟨patrimonio, activos_total,
    if activos_total ≠ 0 then patrimonio / activos_total * 100 else 0⟩

/-- Result record of calcular_indicadores_principales. -/
structure Indicadores where
  roa : ℚ
  eficiencia : ℚ
  solvencia : ℚ
  mes_actual : String
  deriving DecidableEq

/-- Embedding of calcular_indicadores_principales (src/main.py lines 200-233).
A missing period key raises KeyError in the source, caught by the except
branch that returns the zero-filled record with the requested label. -/
def calcular_indicadores_principales (dfs : List (String × DataFrame))
    (mes_actual : String) : Indicadores :=
  match List.lookup mes_actual dfs with
  | none => ⟨0, 0, 0, mes_actual⟩
  | some df =>
      let mb := calcular_metricas_basicas df 5 4 1 ColumnaActivos.codigoContable
      let roa := if mb.activos ≠ 0 then mb.utilidad_neta / mb.activos * 100 else 0
      let me2 := calcular_metricas_eficiencia df 5 45
      let ms := calcular_metricas_solvencia df 3 1
      ⟨roa, me2.eficiencia * 100, ms.solvencia, mes_actual⟩

/-- Standalone Income aggregate (sum of amount where type is 5), used to
state theorems independently of the engine's record-building code. -/
def ingresosDe (df : DataFrame) : ℚ :=
  sumaMonto df.rows (fun r => r.tipo == 5)

/-- Standalone Expense aggregate (sum of amount where type is 4). -/
def gastosDe (df : DataFrame) : ℚ :=
  sumaMonto df.rows (fun r => r.tipo == 4)

/-- Standalone Equity aggregate (sum of amount where type is 3). -/
def patrimonioDe (df : DataFrame) : ℚ :=
  sumaMonto df.rows (fun r => r.tipo == 3)

/-- Standalone Assets aggregate of the monthly paths (sum of amount where
CODIGO_CONTABLE is 1). -/
def activoDe (df : DataFrame) : ℚ :=
  sumaMonto df.rows (fun r => r.codigo == 1)

/-- Standalone Assets aggregate of the annual ROA path (sum of amount where
GRUPO is 1). -/
def activosGrupoDe (df : DataFrame) : ℚ :=
  sumaMonto df.rows (fun r => r.grupo == 1)

/-- Standalone Operating Expense aggregate (sum of amount where
CODIGO_CONTABLE is 45). -/
def gastosOperativosDe (df : DataFrame) : ℚ :=
  sumaMonto df.rows (fun r => r.codigo == 45)

/-- One row of the two-month ROA table. -/
structure FilaROA where
  mes : String
  ingresos_totales : ℚ
  gastos_totales : ℚ
  utilidad_neta : ℚ
  activo_promedio : ℚ
  deriving DecidableEq

/-- Return value of calcularROAMESES: the per-month table plus the scalar
results (second month's income and expense, combined net result and ROA). -/
structure ROAMeses where
  tabla : List FilaROA
  ingresos : ℚ
  gastos : ℚ
  utilidad_neta_total : ℚ
  roa : ℚ
  deriving DecidableEq

/-- Embedding of calcularROAMESES (src/main.py lines 243-278).  The combined
ROA divides the summed net result by the arithmetic mean of the two Assets
aggregates, guarded to 0 when that mean is 0. -/
def calcularROAMESES (mes : String) (df : DataFrame)
    (mes1 : String) (df1 : DataFrame) : ROAMeses :=
  let m1 := calcular_metricas_basicas df 5 4 1 ColumnaActivos.codigoContable
  let m2 := calcular_metricas_basicas df1 5 4 1 ColumnaActivos.codigoContable
  let utilidad_neta_total := m1.utilidad_neta + m2.utilidad_neta
  let activo_promedio := (m1.activos + m2.activos) / 2
  let roa := if activo_promedio ≠ 0 then utilidad_neta_total / activo_promedio * 100 else 0
  ⟨[⟨mes, m1.ingresos, m1.gastos, m1.utilidad_neta, m1.activos⟩,
    ⟨mes1, m2.ingresos, m2.gastos, m2.utilidad_neta, m2.activos⟩],
    m2.ingresos, m2.gastos, utilidad_neta_total, roa⟩

/-- One row of the annual ROA table. -/
structure FilaROAAnual where
  mes : String
  ingresos_totales : ℚ
  gastos_totales : ℚ
  utilidad_neta : ℚ
  activo_promedio : ℚ
  roa : ℚ
  deriving DecidableEq

/-- Return value of calcularROAAnual. -/
structure ROAAnual where
  tabla : List FilaROAAnual
  ingresos_totales_anuales : ℚ
  gastos_totales_anuales : ℚ
  utilidad_neta_anual : ℚ
  activo_promedio_anual : ℚ
  ROA_anual : ℚ
  deriving DecidableEq

/-- Embedding of calcularROAAnual (src/main.py lines 334-386).  The Assets
aggregation of this path uses the GRUPO column (value 1) instead of
CODIGO_CONTABLE; the final ROA divides the annual net result by the simple
average over all months of the per-month Assets aggregates (0 when the
month dictionary is empty, matching the guard on num_meses). -/
def calcularROAAnual (dfs : List (String × DataFrame)) : ROAAnual :=
  let metricasDe := fun (df : DataFrame) =>
    calcular_metricas_basicas df 5 4 1 ColumnaActivos.grupo
  let tabla := dfs.map (fun p =>
    let m := metricasDe p.2
    let roa := if m.activos ≠ 0 then m.utilidad_neta / m.activos * 100 else 0
    (⟨p.1, m.ingresos, m.gastos, m.utilidad_neta, m.activos, roa⟩ : FilaROAAnual))
  let ingresos_totales_anuales := (dfs.map (fun p => (metricasDe p.2).ingresos)).sum
  let gastos_totales_anuales := (dfs.map (fun p => (metricasDe p.2).gastos)).sum
  let activos_totales := dfs.map (fun p => (metricasDe p.2).activos)
  let num_meses := dfs.length
  let utilidad_neta_anual := ingresos_totales_anuales - gastos_totales_anuales
  let activo_promedio_anual :=
    if num_meses > 0 then activos_totales.sum / (num_meses : ℚ) else 0
  let ROA_anual :=
    if activo_promedio_anual ≠ 0 then utilidad_neta_anual / activo_promedio_anual * 100 else 0
  ⟨tabla, ingresos_totales_anuales, gastos_totales_anuales,
    utilidad_neta_anual, activo_promedio_anual, ROA_anual⟩

/-- The one-row result frame of calcularSolvenciaPatrimonialUnMes. -/
structure FilaSolvenciaMes where
  mes : String
  patrimonio : ℚ
  activo_total : ℚ
  solvencia_patrimonial : Option ℚ
  deriving DecidableEq

/-- Embedding of calcularSolvenciaPatrimonialUnMes (src/main.py lines
420-435).  The division patrimonio / activo_total here is NOT guarded in
the source, so a zero Assets aggregate yields a non-finite float (none). -/
def calcularSolvenciaPatrimonialUnMes (df : DataFrame) (nombre_mes : String) :
    FilaSolvenciaMes :=
  let patrimonio := sumaMonto df.rows (fun r => r.tipo == 3)
  let activo_total := sumaMonto df.rows (fun r => r.codigo == 1)
  ⟨nombre_mes, patrimonio, activo_total,
    (pyDiv patrimonio activo_total).map (fun x => x * 100)⟩

/-- Embedding of calcularEficienciaGastoOperativo (src/main.py lines
1084-1098).  The division by ingresos_totales is NOT guarded in the source,
so zero Income yields a non-finite float (none). -/
def calcularEficienciaGastoOperativo (df : DataFrame) : Option ℚ :=
  let ingresos_totales := sumaMonto df.rows (fun r => r.tipo == 5)
  let gastos_operativos := sumaMonto df.rows (fun r => r.codigo == 45)
  pyDiv (ingresos_totales - gastos_operativos) ingresos_totales

/-- One row of the two-month operating-efficiency table. -/
structure FilaEficiencia where
  mes : String
  ingresos_totales : ℚ
  gastos_operativos : ℚ
  eficiencia : Option ℚ
  deriving DecidableEq

/-- Embedding of eficiencia_2_meses (src/main.py lines 1100-1119).  Both
per-period divisions are NOT guarded in the source. -/
def eficiencia_2_meses (df df2 : DataFrame) (mes_inicio mes_final : String) :
    List FilaEficiencia :=
  let ingresos_totales1 := sumaMonto df.rows (fun r => r.tipo == 5)
  let gastos_operativos1 := sumaMonto df.rows (fun r => r.codigo == 45)
  let ingresos_totales2 := sumaMonto df2.rows (fun r => r.tipo == 5)
  let gastos_operativos2 := sumaMonto df2.rows (fun r => r.codigo == 45)
  [⟨mes_inicio, ingresos_totales1, gastos_operativos1,
      pyDiv (ingresos_totales1 - gastos_operativos1) ingresos_totales1⟩,
    ⟨mes_final, ingresos_totales2, gastos_operativos2,
      pyDiv (ingresos_totales2 - gastos_operativos2) ingresos_totales2⟩]

/-- One row of the cumulative annual solvency series: the running equity and
assets totals after folding in a month, and the cumulative solvency snapshot
(unguarded division, hence Option). -/
structure FilaSolvAnual where
  mes : String
  patrimonio_acum : ℚ
  activo_acum : ℚ
  solvencia_patrimonial : Option ℚ
  deriving DecidableEq

/-- The accumulation loop of calcularSolvenciaPatrimonialAnual: threading the
running equity total and running assets total through the months while
recording a cumulative solvency snapshot per month. -/
def solvenciaAnualLoop : ℚ → ℚ → List (String × DataFrame) →
    ℚ × ℚ × List FilaSolvAnual
  | P, A, [] => (P, A, [])
  | P, A, (mes, df) :: rest =>
    let P2 := P + patrimonioDe df
    let A2 := A + activoDe df
    let fila : FilaSolvAnual := ⟨mes, P2, A2, (pyDiv P2 A2).map (fun x => x * 100)⟩
    let r := solvenciaAnualLoop P2 A2 rest
    (r.1, r.2.1, fila :: r.2.2)

/-- Return value of calcularSolvenciaPatrimonialAnual.  The three scalar
outputs are Options: on an empty month dictionary the source raises
ZeroDivisionError when dividing by len(dfs) (modelled as none), and the
final solvency ratio itself is an unguarded float division. -/
structure SolvAnual where
  series : List FilaSolvAnual
  solvencia_patrimonial_anual : Option ℚ
  patrimonio_promedio : Option ℚ
  activo_total_promedio : Option ℚ
  deriving DecidableEq

/-- Embedding of calcularSolvenciaPatrimonialAnual (src/main.py lines
472-508). -/
def calcularSolvenciaPatrimonialAnual (dfs : List (String × DataFrame)) :
    SolvAnual :=
  let r := solvenciaAnualLoop 0 0 dfs
  match dfs.length with
  | 0 => ⟨r.2.2, none, none, none⟩
  | Nat.succ n =>
    let N : ℚ := ((n + 1 : ℕ) : ℚ)
    let patrimonio_promedio := r.1 / N
    let activo_total_promedio := r.2.1 / N
    ⟨r.2.2,
      (pyDiv patrimonio_promedio activo_total_promedio).map (fun x => x * 100),
      some patrimonio_promedio, some activo_total_promedio⟩

/-- A raw accounting row as seen by the validator: TIPO may be missing (NaN)
and the monetary cell is the result of pd.to_numeric with coercion — none
when the cell fails numeric coercion. -/
structure RawRow where
  codigo : Int
  tipo : Option Int
  monto : Option ℚ
  deriving DecidableEq

/-- A raw data frame as seen by the validator: which of the three required
columns are present, plus the rows. -/
structure RawFrame where
  tieneCodigoContable : Bool
  tieneTipo : Bool
  tieneMonto : Bool
  rows : List RawRow
  deriving DecidableEq

/-- Error message for a missing required column. -/
def msgColumnaFaltante (col : String) : String :=
  "Columna requerida faltante: " ++ col

/-- Error message when no cell of the monetary column coerces to a number. -/
def msgNoValores : String :=
  "No hay valores monetarios validos en el archivo"

/-- Warning message for cells that fail numeric coercion. -/
def msgCoercion : String :=
  "Algunos valores monetarios no pudieron convertirse a numeros"

/-- Warning message for extreme monetary values. -/
def msgExtremos : String :=
  "Valores monetarios parecen extremos"

/-- Warning message for TIPO codes outside 1..5. -/
def msgTiposInvalidos : String :=
  "Tipos de cuenta no estandar encontrados"

/-- The missing-required-column errors, in the order the source checks the
columns. -/
def columnasFaltantes (df : RawFrame) : List String :=
  (if df.tieneCodigoContable then [] else [msgColumnaFaltante "CODIGO_CONTABLE"]) ++
  (if df.tieneTipo then [] else [msgColumnaFaltante "TIPO"]) ++
  (if df.tieneMonto then [] else [msgColumnaFaltante "PADRE JULIAN LORENTE LTDA"])

/-- Embedding of validar_datos_financieros (src/main.py lines 122-171),
returning (valid, errors, warnings).  A missing required column returns
immediately with empty warnings; otherwise the semantic checks add the
coercion warning, either the no-valid-values error or the extreme-value
warning, and the invalid-TIPO warning, and validity is emptiness of the
error list. -/
def validar_datos_financieros (df : RawFrame) : Bool × List String × List String :=
  let errores0 := columnasFaltantes df
  if errores0 ≠ [] then (false, errores0, [])
  else
    let advertencias1 := if df.rows.any (fun r => r.monto.isNone) then [msgCoercion] else []
    let valores_monetarios := df.rows.filterMap RawRow.monto
    let errores1 := if valores_monetarios = [] then [msgNoValores] else []
    let advertencias2 :=
      if valores_monetarios ≠ [] ∧
          (valores_monetarios.filter (fun v => |v| > (10 ^ 12 : ℚ))).length > 0
      then [msgExtremos] else []
    let tipos_invalidos :=
      ((df.rows.filterMap RawRow.tipo).dedup).filter
        (fun t => !(([1, 2, 3, 4, 5] : List Int).contains t))
    let advertencias3 := if tipos_invalidos ≠ [] then [msgTiposInvalidos] else []
    (errores1.isEmpty, errores1, advertencias1 ++ advertencias2 ++ advertencias3)

/-- Dataset A of the end-to-end example: rows with type 5 / amount 1000,
type 4 / amount 600, account code 1 / amount 2000, type 3 / amount 800.
Unmentioned columns are 0 (they match none of the engine's selectors). -/
def dfA : DataFrame :=
  ⟨[⟨0, 5, 0, 1000⟩, ⟨0, 4, 0, 600⟩, ⟨1, 0, 0, 2000⟩, ⟨0, 3, 0, 800⟩]⟩

/-- C3: on dataset A the single-period metric functions return Income 1000,
Expense 600, NetResult 400, Assets 2000, Equity 800, ROA 20 and Equity
Solvency 40. -/
theorem C3_ejemplo_extremo_a_extremo :
    (calcular_metricas_basicas dfA 5 4 1 ColumnaActivos.codigoContable).ingresos = 1000 ∧
    (calcular_metricas_basicas dfA 5 4 1 ColumnaActivos.codigoContable).gastos = 600 ∧
    (calcular_metricas_basicas dfA 5 4 1 ColumnaActivos.codigoContable).utilidad_neta = 400 ∧
    (calcular_metricas_basicas dfA 5 4 1 ColumnaActivos.codigoContable).activos = 2000 ∧
    (calcular_metricas_solvencia dfA 3 1).patrimonio = 800 ∧
    (calcular_indicadores_principales [("Enero", dfA)] "Enero").roa = 20 ∧
    (calcular_indicadores_principales [("Enero", dfA)] "Enero").solvencia = 40 := by
  simp [calcular_metricas_basicas, calcular_metricas_solvencia,
    calcular_indicadores_principales, calcular_metricas_eficiencia,
    sumaMonto, dfA, valorColumna, List.lookup, List.filter_cons]
  norm_num

/-- Evaluation of the basic-metrics helper at the engine's standard monthly
arguments, in terms of the standalone aggregates. -/
lemma metricas_basicas_eval (df : DataFrame) :
    calcular_metricas_basicas df 5 4 1 ColumnaActivos.codigoContable =
      ⟨ingresosDe df, gastosDe df, activoDe df, ingresosDe df - gastosDe df⟩ := rfl

/-- Evaluation of the solvency helper at the engine's standard arguments. -/
lemma metricas_solvencia_eval (df : DataFrame) :
    calcular_metricas_solvencia df 3 1 =
      ⟨patrimonioDe df, activoDe df,
        if activoDe df ≠ 0 then patrimonioDe df / activoDe df * 100 else 0⟩ := rfl

/-- Evaluation of the efficiency helper at the engine's standard arguments. -/
lemma metricas_eficiencia_eval (df : DataFrame) :
    calcular_metricas_eficiencia df 5 45 =
      ⟨ingresosDe df, gastosOperativosDe df,
        if ingresosDe df ≠ 0
        then (ingresosDe df - gastosOperativosDe df) / ingresosDe df else 0⟩ := rfl

/-- Evaluation of the indicator summary on a singleton mapping containing the
requested period. -/
lemma indicadores_eval (df : DataFrame) (mes : String) :
    calcular_indicadores_principales [(mes, df)] mes =
      ⟨(if activoDe df ≠ 0
        then (ingresosDe df - gastosDe df) / activoDe df * 100 else 0),
       (if ingresosDe df ≠ 0
        then (ingresosDe df - gastosOperativosDe df) / ingresosDe df else 0) * 100,
       (if activoDe df ≠ 0 then patrimonioDe df / activoDe df * 100 else 0),
       mes⟩ := by
  unfold calcular_indicadores_principales
  simp [List.lookup, metricas_basicas_eval, metricas_eficiencia_eval,
    metricas_solvencia_eval]

/-- C1 counterexample input: one equity row of amount 5 and no row with
account code 1, so the Assets aggregate is 0. -/
def dfSinActivos : DataFrame := ⟨[⟨0, 3, 0, 5⟩]⟩

/-- C1: refuted as stated.  On a dataset whose rows with account code 1 sum
to 0, the single-month Equity Solvency computation
calcularSolvenciaPatrimonialUnMes does not return 0: its division is
unguarded, so the result is the non-finite float value (none), not 0. -/
theorem C1_contraejemplo :
    (calcularSolvenciaPatrimonialUnMes dfSinActivos "Enero").solvencia_patrimonial = none ∧
    (calcularSolvenciaPatrimonialUnMes dfSinActivos "Enero").solvencia_patrimonial ≠ some 0 := by
  constructor <;>
    simp [calcularSolvenciaPatrimonialUnMes, sumaMonto, dfSinActivos, pyDiv,
      List.filter_cons]

/-- C1 (amended): when the denominators are zero, the guarded engine paths
(ROA and Operating Efficiency in the indicator summary, the solvency
helper) return exactly 0, while the unguarded display function
calcularSolvenciaPatrimonialUnMes yields a non-finite value (none). -/
theorem C1_division_por_cero (df : DataFrame) (mes : String)
    (hA : activoDe df = 0) (hI : ingresosDe df = 0) :
    (calcular_indicadores_principales [(mes, df)] mes).roa = 0 ∧
    (calcular_indicadores_principales [(mes, df)] mes).eficiencia = 0 ∧
    (calcular_metricas_solvencia df 3 1).solvencia = 0 ∧
    (calcularSolvenciaPatrimonialUnMes df mes).solvencia_patrimonial = none := by
  refine ⟨?_, ?_, ?_, ?_⟩
  · rw [indicadores_eval]
    simp [hA]
  · rw [indicadores_eval]
    simp [hI]
  · rw [metricas_solvencia_eval]
    simp [hA]
  · show (pyDiv (patrimonioDe df) (activoDe df)).map (fun x => x * 100) = none
    rw [hA]
    simp [pyDiv]

/-- C1 witness: the amended statement evaluated at the concrete dataset with
no assets and no income rows. -/
theorem C1_testigo :
    (calcular_indicadores_principales [("Enero", dfSinActivos)] "Enero").roa = 0 ∧
    (calcular_indicadores_principales [("Enero", dfSinActivos)] "Enero").eficiencia = 0 ∧
    (calcular_metricas_solvencia dfSinActivos 3 1).solvencia = 0 ∧
    (calcularSolvenciaPatrimonialUnMes dfSinActivos "Enero").solvencia_patrimonial = none :=
  C1_division_por_cero dfSinActivos "Enero"
    (by simp [activoDe, sumaMonto, dfSinActivos, List.filter_cons])
    (by simp [ingresosDe, sumaMonto, dfSinActivos, List.filter_cons])

/-- C2: the indicator summary always carries the requested period label, and
a missing period key produces the zero-filled result (the fail-to-zero
policy); the embedding is total, so nothing propagates to the caller. -/
theorem C2_resumen_indicadores (dfs : List (String × DataFrame)) (mes : String) :
    (calcular_indicadores_principales dfs mes).mes_actual = mes ∧
    (List.lookup mes dfs = none →
      calcular_indicadores_principales dfs mes = ⟨0, 0, 0, mes⟩) := by
  unfold calcular_indicadores_principales
  cases h : List.lookup mes dfs with
  | none => simp
  | some df => simp

/-- C2 witness: on the empty mapping the key is missing and the summary is
the zero-filled record labelled with the requested period. -/
theorem C2_testigo :
    List.lookup "Enero" ([] : List (String × DataFrame)) = none ∧
    calcular_indicadores_principales [] "Enero" = ⟨0, 0, 0, "Enero"⟩ :=
  ⟨rfl, (C2_resumen_indicadores [] "Enero").2 rfl⟩

/-- C4: the two-period composition returns the summed net result, and its
combined ROA divides that sum by the arithmetic mean of the two Assets
aggregates (0 when the mean is 0). -/
theorem C4_roa_dos_meses (mes mes1 : String) (df df1 : DataFrame) :
    (calcularROAMESES mes df mes1 df1).utilidad_neta_total =
      (ingresosDe df - gastosDe df) + (ingresosDe df1 - gastosDe df1) ∧
    (calcularROAMESES mes df mes1 df1).roa =
      (if (activoDe df + activoDe df1) / 2 ≠ 0
       then ((ingresosDe df - gastosDe df) + (ingresosDe df1 - gastosDe df1)) /
         ((activoDe df + activoDe df1) / 2) * 100
       else 0) :=
  ⟨rfl, rfl⟩

/-- Evaluation of the basic-metrics helper at the annual path's arguments
(Assets selected by the GRUPO column). -/
lemma metricas_basicas_grupo_eval (df : DataFrame) :
    calcular_metricas_basicas df 5 4 1 ColumnaActivos.grupo =
      ⟨ingresosDe df, gastosDe df, activosGrupoDe df, ingresosDe df - gastosDe df⟩ := rfl

/-- C5: the annual ROA aggregates Assets by GRUPO = 1 (activosGrupoDe, unlike
the monthly paths which use CODIGO_CONTABLE), and the final annual ROA is
total income minus total expense over the simple average of the per-month
Assets aggregates, times 100, guarded to 0 when that average is 0. -/
theorem C5_roa_anual (dfs : List (String × DataFrame)) (h : dfs ≠ []) :
    (calcularROAAnual dfs).ROA_anual =
      (if (dfs.map (fun p => activosGrupoDe p.2)).sum / (dfs.length : ℚ) ≠ 0
       then ((dfs.map (fun p => ingresosDe p.2)).sum -
           (dfs.map (fun p => gastosDe p.2)).sum) /
         ((dfs.map (fun p => activosGrupoDe p.2)).sum / (dfs.length : ℚ)) * 100
       else 0) := by
  have hl : 0 < dfs.length := List.length_pos.mpr h
  simp only [calcularROAAnual, metricas_basicas_grupo_eval, hl, if_true, gt_iff_lt,
    if_pos hl]

/-- Input for the C5 witness: like dataset A but with the assets row carried
in the GRUPO column instead of CODIGO_CONTABLE. -/
def dfG : DataFrame :=
  ⟨[⟨0, 5, 0, 1000⟩, ⟨0, 4, 0, 600⟩, ⟨0, 0, 1, 2000⟩, ⟨0, 3, 0, 800⟩]⟩

/-- C5 witness: on a single-month dictionary with GRUPO-classified assets of
2000 and net result 400 the annual ROA evaluates to 20. -/
theorem C5_testigo : (calcularROAAnual [("Enero", dfG)]).ROA_anual = 20 := by
  have h := C5_roa_anual [("Enero", dfG)] (by simp)
  rw [h]
  norm_num [activosGrupoDe, ingresosDe, gastosDe, sumaMonto, dfG, List.filter_cons]

/-- C6: with any required column absent, validation returns immediately with
valid false, a nonempty error list and no warnings (the structural failure
short-circuits the semantic checks). -/
theorem C6_columna_faltante (df : RawFrame)
    (h : df.tieneCodigoContable = false ∨ df.tieneTipo = false ∨ df.tieneMonto = false) :
    (validar_datos_financieros df).1 = false ∧
    (validar_datos_financieros df).2.1 ≠ [] ∧
    (validar_datos_financieros df).2.2 = [] := by
  obtain ⟨b1, b2, b3, rs⟩ := df
  have hne : columnasFaltantes ⟨b1, b2, b3, rs⟩ ≠ [] := by
    cases b1 <;> cases b2 <;> cases b3 <;>
      simp_all [columnasFaltantes, msgColumnaFaltante]
  simp [validar_datos_financieros, hne]

/-- C6 witness input: the TIPO column removed from an otherwise well-formed
frame. -/
def dfRawSinTipo : RawFrame := ⟨true, false, true, []⟩

/-- C6 witness: removing the TIPO column yields valid false, at least one
error and zero warnings. -/
theorem C6_testigo :
    (validar_datos_financieros dfRawSinTipo).1 = false ∧
    (validar_datos_financieros dfRawSinTipo).2.1 ≠ [] ∧
    (validar_datos_financieros dfRawSinTipo).2.2 = [] :=
  C6_columna_faltante dfRawSinTipo (Or.inr (Or.inl rfl))

/-- C7 counterexample input: all three required columns present and zero
rows, so every amount cell vacuously coerces. -/
def dfRawVacio : RawFrame := ⟨true, true, true, []⟩

/-- C7: refuted as stated.  A dataset with all required columns and (vacuously)
purely numeric amounts can still fail validation: with no coercible monetary
value at all, the no-valid-values error fires and valid is false. -/
theorem C7_contraejemplo :
    ¬ ((validar_datos_financieros dfRawVacio).1 = true ∧
      (validar_datos_financieros dfRawVacio).2.1 = []) := by
  simp [validar_datos_financieros, columnasFaltantes, dfRawVacio, msgNoValores]

/-- C7 (amended): for every dataset with all three required columns, at least
one row, and purely numeric amounts, validation returns valid true with an
empty error list (warnings never affect validity). -/
theorem C7_validacion_correcta (df : RawFrame)
    (hc : df.tieneCodigoContable = true) (ht : df.tieneTipo = true)
    (hm : df.tieneMonto = true) (hr : df.rows ≠ [])
    (hnum : ∀ r ∈ df.rows, r.monto.isSome) :
    (validar_datos_financieros df).1 = true ∧
    (validar_datos_financieros df).2.1 = [] := by
  have hcols : columnasFaltantes df = [] := by
    simp [columnasFaltantes, hc, ht, hm]
  have hval : df.rows.filterMap RawRow.monto ≠ [] := by
    obtain ⟨r, hr2⟩ := List.exists_mem_of_ne_nil df.rows hr
    intro hcontra
    rw [List.filterMap_eq_nil_iff] at hcontra
    have h1 := hcontra r hr2
    have h2 := hnum r hr2
    rw [h1] at h2
    simp at h2
  simp [validar_datos_financieros, hcols, hval]

/-- C7 witness input: one fully numeric row with all columns present. -/
def dfRawBueno : RawFrame := ⟨true, true, true, [⟨1, some 1, some 100⟩]⟩

/-- C7 witness: the amended statement at a concrete well-formed frame. -/
theorem C7_testigo :
    (validar_datos_financieros dfRawBueno).1 = true ∧
    (validar_datos_financieros dfRawBueno).2.1 = [] :=
  C7_validacion_correcta dfRawBueno rfl rfl rfl
    (by simp [dfRawBueno]) (by simp [dfRawBueno])

/-- C8 counterexample input: one operating-expense row (account code 45,
amount 7) and no income rows, so Income is 0. -/
def dfSinIngresos : DataFrame := ⟨[⟨45, 4, 0, 7⟩]⟩

/-- C8: refuted as stated.  With Income 0 the single-month display variant
calcularEficienciaGastoOperativo divides unguarded and yields the non-finite
float value (none), not 0. -/
theorem C8_contraejemplo :
    calcularEficienciaGastoOperativo dfSinIngresos = none ∧
    calcularEficienciaGastoOperativo dfSinIngresos ≠ some 0 := by
  constructor <;>
    simp [calcularEficienciaGastoOperativo, sumaMonto, dfSinIngresos, pyDiv,
      List.filter_cons]

/-- C8 (amended): with Income 0, the guarded engine helper returns exactly 0,
while the unguarded display variants (single-month, and the first period of
the two-month table) yield a non-finite value (none). -/
theorem C8_eficiencia_ingresos_cero (df df2 : DataFrame)
    (mes_inicio mes_final : String) (h : ingresosDe df = 0) :
    (calcular_metricas_eficiencia df 5 45).eficiencia = 0 ∧
    calcularEficienciaGastoOperativo df = none ∧
    ((eficiencia_2_meses df df2 mes_inicio mes_final).map
      FilaEficiencia.eficiencia).head? = some none := by
  refine ⟨?_, ?_, ?_⟩
  · rw [metricas_eficiencia_eval]
    simp [h]
  · show pyDiv (ingresosDe df - gastosOperativosDe df) (ingresosDe df) = none
    rw [h]
    simp [pyDiv]
  · have hlista : eficiencia_2_meses df df2 mes_inicio mes_final =
        [⟨mes_inicio, ingresosDe df, gastosOperativosDe df,
            pyDiv (ingresosDe df - gastosOperativosDe df) (ingresosDe df)⟩,
          ⟨mes_final, ingresosDe df2, gastosOperativosDe df2,
            pyDiv (ingresosDe df2 - gastosOperativosDe df2) (ingresosDe df2)⟩] := rfl
    rw [hlista]
    simp [h, pyDiv]

/-- C8 witness: the amended statement at the concrete no-income dataset. -/
theorem C8_testigo :
    (calcular_metricas_eficiencia dfSinIngresos 5 45).eficiencia = 0 ∧
    calcularEficienciaGastoOperativo dfSinIngresos = none ∧
    ((eficiencia_2_meses dfSinIngresos dfA "Octubre" "Noviembre").map
      FilaEficiencia.eficiencia).head? = some none :=
  C8_eficiencia_ingresos_cero dfSinIngresos dfA "Octubre" "Noviembre"
    (by simp [ingresosDe, sumaMonto, dfSinIngresos, List.filter_cons])

/-- C9: with all required columns present but no cell of the monetary column
coercing to a number, validation fails with exactly the no-valid-values
error, even though no individual row is structurally wrong. -/
theorem C9_sin_valores_validos (df : RawFrame)
    (hc : df.tieneCodigoContable = true) (ht : df.tieneTipo = true)
    (hm : df.tieneMonto = true)
    (hv : df.rows.filterMap RawRow.monto = []) :
    (validar_datos_financieros df).1 = false ∧
    (validar_datos_financieros df).2.1 = [msgNoValores] := by
  have hcols : columnasFaltantes df = [] := by
    simp [columnasFaltantes, hc, ht, hm]
  simp [validar_datos_financieros, hcols, hv]

/-- C9 witness input: all columns present, one row whose monetary cell fails
numeric coercion. -/
def dfRawNoNumerico : RawFrame := ⟨true, true, true, [⟨1, some 1, none⟩]⟩

/-- C9 witness: the statement at a concrete frame with no coercible amount. -/
theorem C9_testigo :
    (validar_datos_financieros dfRawNoNumerico).1 = false ∧
    (validar_datos_financieros dfRawNoNumerico).2.1 = [msgNoValores] :=
  C9_sin_valores_validos dfRawNoNumerico rfl rfl rfl (by simp [dfRawNoNumerico])

/-- The running equity total after the annual solvency loop is the starting
value plus the sum of the per-month Equity aggregates. -/
lemma solvenciaAnualLoop_fst (dfs : List (String × DataFrame)) :
    ∀ P A : ℚ, (solvenciaAnualLoop P A dfs).1 =
      P + (dfs.map (fun p => patrimonioDe p.2)).sum := by
  induction dfs with
  | nil => intro P A; simp [solvenciaAnualLoop]
  | cons hd tl ih =>
    intro P A
    simp only [solvenciaAnualLoop, ih, List.map_cons, List.sum_cons]
    ring

/-- The running assets total after the annual solvency loop is the starting
value plus the sum of the per-month Assets aggregates. -/
lemma solvenciaAnualLoop_snd (dfs : List (String × DataFrame)) :
    ∀ P A : ℚ, (solvenciaAnualLoop P A dfs).2.1 =
      A + (dfs.map (fun p => activoDe p.2)).sum := by
  induction dfs with
  | nil => intro P A; simp [solvenciaAnualLoop]
  | cons hd tl ih =>
    intro P A
    simp only [solvenciaAnualLoop, ih, List.map_cons, List.sum_cons]
    ring

/-- The last cumulative solvency snapshot recorded by the annual loop is the
unguarded ratio of the final running totals, times 100. -/
lemma solvenciaAnualLoop_ultimo :
    ∀ (dfs : List (String × DataFrame)) (P A : ℚ), dfs ≠ [] →
      ((solvenciaAnualLoop P A dfs).2.2.getLast?).map FilaSolvAnual.solvencia_patrimonial =
        some ((pyDiv (P + (dfs.map (fun p => patrimonioDe p.2)).sum)
          (A + (dfs.map (fun p => activoDe p.2)).sum)).map (fun x => x * 100))
  | [], _, _, h => absurd rfl h
  | [x], P, A, _ => by
    simp [solvenciaAnualLoop]
  | x :: y :: t, P, A, _ => by
    have ih := solvenciaAnualLoop_ultimo (y :: t)
      (P + patrimonioDe x.2) (A + activoDe x.2) (by simp)
    simp only [solvenciaAnualLoop] at ih ⊢
    rw [List.getLast?_cons_cons, ih]
    have hP : P + patrimonioDe x.2 +
        (patrimonioDe y.2 + ((t.map (fun p => patrimonioDe p.2)).sum)) =
        P + (patrimonioDe x.2 + (patrimonioDe y.2 + (t.map (fun p => patrimonioDe p.2)).sum)) := by
      ring
    have hA : A + activoDe x.2 +
        (activoDe y.2 + ((t.map (fun p => activoDe p.2)).sum)) =
        A + (activoDe x.2 + (activoDe y.2 + (t.map (fun p => activoDe p.2)).sum)) := by
      ring
    simp only [List.map_cons, List.sum_cons] at hP hA ⊢
    rw [hP, hA]

/-- Dividing numerator and denominator of an unguarded division by the same
nonzero constant does not change it. -/
lemma pyDiv_div_div (a b c : ℚ) (hb : b ≠ 0) (hc : c ≠ 0) :
    pyDiv (a / c) (b / c) = pyDiv a b := by
  unfold pyDiv
  rw [if_neg (div_ne_zero hb hc), if_neg hb]
  congr 1
  field_simp

/-- C10: on a nonempty month dictionary with nonzero total Assets, the final
annual solvency (average equity over average assets, times 100) equals the
last entry of the cumulative per-month solvency series, because dividing
numerator and denominator by the month count cancels. -/
theorem C10_solvencia_anual (dfs : List (String × DataFrame)) (h1 : dfs ≠ [])
    (h2 : (dfs.map (fun p => activoDe p.2)).sum ≠ 0) :
    ((calcularSolvenciaPatrimonialAnual dfs).series.getLast?).map
        FilaSolvAnual.solvencia_patrimonial =
      some (calcularSolvenciaPatrimonialAnual dfs).solvencia_patrimonial_anual ∧
    (calcularSolvenciaPatrimonialAnual dfs).solvencia_patrimonial_anual =
      some ((dfs.map (fun p => patrimonioDe p.2)).sum /
        (dfs.map (fun p => activoDe p.2)).sum * 100) := by
  cases dfs with
  | nil => exact absurd rfl h1
  | cons hd tl =>
    have hfst := solvenciaAnualLoop_fst (hd :: tl) 0 0
    have hsnd := solvenciaAnualLoop_snd (hd :: tl) 0 0
    have hult := solvenciaAnualLoop_ultimo (hd :: tl) 0 0 (by simp)
    rw [zero_add] at hfst hsnd
    simp only [zero_add] at hult
    have hN : ((tl.length + 1 : ℕ) : ℚ) ≠ 0 := by
      exact_mod_cast Nat.succ_ne_zero tl.length
    have hserie : (calcularSolvenciaPatrimonialAnual (hd :: tl)).series =
        (solvenciaAnualLoop 0 0 (hd :: tl)).2.2 := rfl
    have hanual : (calcularSolvenciaPatrimonialAnual (hd :: tl)).solvencia_patrimonial_anual =
        (pyDiv ((solvenciaAnualLoop 0 0 (hd :: tl)).1 / ((tl.length + 1 : ℕ) : ℚ))
          ((solvenciaAnualLoop 0 0 (hd :: tl)).2.1 / ((tl.length + 1 : ℕ) : ℚ))).map
          (fun x => x * 100) := rfl
    rw [hserie, hanual, hfst, hsnd, pyDiv_div_div _ _ _ h2 hN]
    constructor
    · rw [hult]
    · unfold pyDiv
      rw [if_neg h2]
      rfl

/-- C10 witness: on a single-month dictionary built from dataset A (equity
800, assets 2000) the annual solvency evaluates to 40, matching the last
cumulative snapshot. -/
theorem C10_testigo :
    (calcularSolvenciaPatrimonialAnual [("Enero", dfA)]).solvencia_patrimonial_anual =
      some 40 := by
  have h := C10_solvencia_anual [("Enero", dfA)] (by simp)
    (by norm_num [activoDe, sumaMonto, dfA, List.filter_cons])
  rw [h.2]
  norm_num [patrimonioDe, activoDe, sumaMonto, dfA, List.filter_cons]
